import Mathlib

/-
  Shallow embedding of the rotary-encoder-embedded library (src/lib.rs).

  Modelling decisions, each tied to the source:
  * The two input pins are external capabilities whose only operation is a
    fallible level read (embedded-hal is_high returning Result<bool, _>).
    We therefore pass each read outcome to update as an Option Bool:
    some b is a successful read of level b, Option.none is a failed read.
    The source maps a failed read to false via unwrap_or_default.
  * pos_calc is an i8 in the source; we model it as Int.  Every state this
    development reasons about keeps pos_calc in [-4, 4] (the proved
    invariant bounds it by the sensitivity magnitude, and the concrete
    counterexample traces stay below 5), where Int and i8 agree exactly.
  * transition is a u8; we model it as Nat reduced modulo 256 on each
    shift, which is exactly the u8 wrapping of (transition << 2) | current
    because the low two bits of the shifted value are zero.
  * velocity and the two factors are f32 in the source; we model them as
    exact rationals.  All concrete values appearing in theorems and traces
    (0, 1, 1/5, 1/100, -1/2, 2/5) are exactly representable in f32 and the
    operations used (add, sub, compare, clamp) round monotonically, so the
    corrected statements transfer to the floating-point program on the
    non-NaN inputs they quantify over.
-/

/-- Direction of Rotary Encoder rotation (enum Direction in the source). -/
inductive Direction where
  | none
  | clockwise
  | anticlockwise
  deriving DecidableEq, Repr

/-- The Sensitivity of the Rotary Encoder (enum Sensitivity in the source). -/
inductive Sensitivity where
  | default
  | low
  deriving DecidableEq, Repr

/-- Discriminant of the Sensitivity enum: Default = 2, Low = 4.
The source reads it with the cast (self.sensitivity as i8). -/
def Sensitivity.toInt : Sensitivity → Int
  | .default => 2
  | .low => 4

/-- State table for recognizing valid rotary encoder values
(const STATES: [i8; 16] in the source). -/
def STATES : List Int := [0, -1, 1, 0, 1, 0, 0, -1, -1, 0, 0, 1, 0, 1, -1, 0]

/-- Outcome of one fallible level read per pin: some b on success,
Option.none when the read failed. -/
abbrev Input := Option Bool × Option Bool

/-- Convenience constructor for a pair of successful pin reads. -/
def pinInput (dt clk : Bool) : Input := (some dt, some clk)

/-- The 2-bit current sample (dt_state << 1) | clk_state, where a failed
read is unwrap_or_default-ed to false, i.e. level low. -/
def currentSample (dtRead clkRead : Option Bool) : Nat :=
  2 * (if dtRead.getD false then 1 else 0) + (if clkRead.getD false then 1 else 0)

/-- Rotary Encoder state (struct RotaryEncoder without the owned pins:
the pins live outside, their reads are passed to update). -/
structure RotaryEncoder where
  pos_calc : Int
  sensitivity : Sensitivity
  transition : Nat
  direction : Direction
  deriving DecidableEq, Repr

/-- RotaryEncoder::new, minus the pin ownership transfer. -/
def RotaryEncoder.new : RotaryEncoder :=
  { pos_calc := 0, transition := 0, sensitivity := Sensitivity.default,
    direction := Direction.none }

/-- RotaryEncoder::set_sensitivity. -/
def RotaryEncoder.set_sensitivity (e : RotaryEncoder) (s : Sensitivity) : RotaryEncoder :=
  { e with sensitivity := s }

/-- The shifted transition register
self.transition = (self.transition << 2) | current, as a u8. -/
def RotaryEncoder.nextTransition (e : RotaryEncoder) (dtRead clkRead : Option Bool) : Nat :=
  (e.transition * 4 + currentSample dtRead clkRead) % 256

/-- The table value STATES[(transition & 0x0F) as usize] added to pos_calc
by this update call. -/
def RotaryEncoder.stepOf (e : RotaryEncoder) (dtRead clkRead : Option Bool) : Int :=
  STATES.getD (e.nextTransition dtRead clkRead % 16) 0

/-- RotaryEncoder::update.  Reads are passed in as the outcomes of
pin_dt.is_high() and pin_clk.is_high(). -/
def RotaryEncoder.update (e : RotaryEncoder) (dtRead clkRead : Option Bool) : RotaryEncoder :=
  let transition := e.nextTransition dtRead clkRead
  let pos_calc := e.pos_calc + e.stepOf dtRead clkRead
  let sensitivity := e.sensitivity.toInt
  if pos_calc = sensitivity ∨ pos_calc = -sensitivity then
    { e with transition := transition, pos_calc := 0,
             direction := if pos_calc = sensitivity then Direction.clockwise
                          else Direction.anticlockwise }
  else
    { e with transition := transition, pos_calc := pos_calc,
             direction := Direction.none }

/-- Run a sequence of update calls, one per pin-sample pair. -/
def RotaryEncoder.run (e : RotaryEncoder) (l : List Input) : RotaryEncoder :=
  l.foldl (fun e i => e.update i.1 i.2) e

/-- Number of calls in the trace after which the stored direction equals d. -/
def RotaryEncoder.dirEventCount (e : RotaryEncoder) (l : List Input) (d : Direction) : Nat :=
  (l.foldl
    (fun (p : RotaryEncoder × Nat) i =>
      let e := p.1.update i.1 i.2
      (e, p.2 + (if e.direction = d then 1 else 0)))
    (e, 0)).2

/-- Rotary Encoder with velocity (struct RotaryEncoderWithVelocity),
again minus the owned pins.  f32 fields are modelled as rationals. -/
structure RotaryEncoderWithVelocity where
  inner : RotaryEncoder
  velocity : ℚ
  velocity_inc_factor : ℚ
  velocity_dec_factor : ℚ
  velocity_action_ms : Nat
  previous_time : Nat
  deriving DecidableEq, Repr

/-- RotaryEncoderWithVelocity::new with the default factor constants
DEFAULT_VELOCITY_INC_FACTOR = 0.2, DEFAULT_VELOCITY_DEC_FACTOR = 0.01,
DEFAULT_VELOCITY_ACTION_MS = 25. -/
def RotaryEncoderWithVelocity.new : RotaryEncoderWithVelocity :=
  { inner := RotaryEncoder.new, velocity := 0,
    velocity_inc_factor := 1/5, velocity_dec_factor := 1/100,
    velocity_action_ms := 25, previous_time := 0 }

/-- RotaryEncoderWithVelocity::set_velocity_inc_factor. -/
def RotaryEncoderWithVelocity.set_velocity_inc_factor
    (tr : RotaryEncoderWithVelocity) (inc_factor : ℚ) : RotaryEncoderWithVelocity :=
  { tr with velocity_inc_factor := inc_factor }

/-- RotaryEncoderWithVelocity::set_velocity_dec_factor. -/
def RotaryEncoderWithVelocity.set_velocity_dec_factor
    (tr : RotaryEncoderWithVelocity) (dec_factor : ℚ) : RotaryEncoderWithVelocity :=
  { tr with velocity_dec_factor := dec_factor }

/-- RotaryEncoderWithVelocity::set_velocity_action_ms. -/
def RotaryEncoderWithVelocity.set_velocity_action_ms
    (tr : RotaryEncoderWithVelocity) (action_ms : Nat) : RotaryEncoderWithVelocity :=
  { tr with velocity_action_ms := action_ms }

/-- RotaryEncoderWithVelocity::set_sensitivity (writes through to inner). -/
def RotaryEncoderWithVelocity.set_sensitivity
    (tr : RotaryEncoderWithVelocity) (s : Sensitivity) : RotaryEncoderWithVelocity :=
  { tr with inner := { tr.inner with sensitivity := s } }

/-- RotaryEncoderWithVelocity::decay_velocity:
velocity -= dec_factor, clamped below at 0.0. -/
def RotaryEncoderWithVelocity.decay_velocity
    (tr : RotaryEncoderWithVelocity) : RotaryEncoderWithVelocity :=
  let v := tr.velocity - tr.velocity_dec_factor
  { tr with velocity := if v < 0 then 0 else v }

/-- RotaryEncoderWithVelocity::update.  The subtraction
current_time - self.previous_time is u64 subtraction in the source; here
it is Nat subtraction, and the development proves separately (claim C9)
that along monotone traces previous_time never exceeds current_time, so
truncation never occurs on the traces the source is specified for. -/
def RotaryEncoderWithVelocity.update (tr : RotaryEncoderWithVelocity)
    (dtRead clkRead : Option Bool) (current_time : Nat) : RotaryEncoderWithVelocity :=
  let inner := tr.inner.update dtRead clkRead
  if inner.direction ≠ Direction.none then
    if current_time - tr.previous_time < tr.velocity_action_ms ∧ tr.velocity < 1 then
      let v := tr.velocity + tr.velocity_inc_factor
      { tr with inner := inner, velocity := if 1 < v then 1 else v }
    else
      { tr with inner := inner }
  else
    { tr with inner := inner, previous_time := current_time }

/-- Run a sequence of tracker update calls, one per (pin sample, time). -/
def RotaryEncoderWithVelocity.runUpdates (tr : RotaryEncoderWithVelocity)
    (l : List (Input × Nat)) : RotaryEncoderWithVelocity :=
  l.foldl (fun tr c => tr.update c.1.1 c.1.2 c.2) tr

/-- One externally invokable tracker operation, for interleaving traces. -/
inductive TrackerOp where
  | upd (dtRead clkRead : Option Bool) (t : Nat)
  | decay
  | setInc (q : ℚ)
  | setDec (q : ℚ)
  | setActionMs (ms : Nat)
  | setSens (s : Sensitivity)
  deriving DecidableEq, Repr

/-- Apply one tracker operation. -/
def RotaryEncoderWithVelocity.applyOp (tr : RotaryEncoderWithVelocity) :
    TrackerOp → RotaryEncoderWithVelocity
  | .upd dtRead clkRead t => tr.update dtRead clkRead t
  | .decay => tr.decay_velocity
  | .setInc q => tr.set_velocity_inc_factor q
  | .setDec q => tr.set_velocity_dec_factor q
  | .setActionMs ms => tr.set_velocity_action_ms ms
  | .setSens s => tr.set_sensitivity s

/-- Run an interleaved sequence of tracker operations. -/
def RotaryEncoderWithVelocity.runOps (tr : RotaryEncoderWithVelocity)
    (l : List TrackerOp) : RotaryEncoderWithVelocity :=
  l.foldl RotaryEncoderWithVelocity.applyOp tr

/-- The factor carried by a setter operation is nonnegative (trivially
true for the non-setter operations). -/
def TrackerOp.factorNonneg : TrackerOp → Prop
  | .setInc q => 0 ≤ q
  | .setDec q => 0 ≤ q
  | _ => True

instance (op : TrackerOp) : Decidable op.factorNonneg := by
  cases op <;> dsimp [TrackerOp.factorNonneg] <;> infer_instance

/-- An invalid sample jump: both pin bits change at once between the
previous 2-bit sample and the current 2-bit sample (00 to 11, 11 to 00,
01 to 10, 10 to 01). -/
abbrev invalidJump (p c : Nat) : Prop :=
  (p = 0 ∧ c = 3) ∨ (p = 3 ∧ c = 0) ∨ (p = 1 ∧ c = 2) ∨ (p = 2 ∧ c = 1)

/-- Tracker states whose velocity sits in [0, 1] and whose stored factors
are nonnegative. -/
def trackerInv (tr : RotaryEncoderWithVelocity) : Prop :=
  0 ≤ tr.velocity ∧ tr.velocity ≤ 1 ∧
  0 ≤ tr.velocity_inc_factor ∧ 0 ≤ tr.velocity_dec_factor

/-- A concrete tracker state used to witness the amended C4: the inner
decoder is one valid step into a clockwise detent and previous_time is 5,
between the two event times 5 and 6. -/
def c4Tracker : RotaryEncoderWithVelocity :=
  { inner := { pos_calc := 1, sensitivity := Sensitivity.default,
               transition := 2, direction := Direction.none },
    velocity := 0, velocity_inc_factor := 1/5, velocity_dec_factor := 1/100,
    velocity_action_ms := 25, previous_time := 5 }

/-- The clamp written as if 1 < v then 1 else v in update is the min with 1. -/
theorem clamp_top_eq_min (x : ℚ) : (if 1 < x then 1 else x) = min x 1 := by
  rcases le_or_lt x 1 with h | h
  · rw [if_neg (not_lt.mpr h), min_eq_left h]
  · rw [if_pos h, min_eq_right h.le]

/-- Claim C10: the 16-entry table STATES only holds -1, 0 and 1; the entry
at index (a<<2)|b is the negation of the entry at index (b<<2)|a, so
reversing a pin transition negates its accumulator step; and every entry at
a repeated-sample index (a<<2)|a is 0, so an unchanged sample pair
contributes nothing. -/
theorem c10_states_table :
    (∀ i : Fin 16,
      STATES.getD i.val 0 = -1 ∨ STATES.getD i.val 0 = 0 ∨ STATES.getD i.val 0 = 1) ∧
    (∀ a b : Fin 4,
      STATES.getD (a.val * 4 + b.val) 0 = -STATES.getD (b.val * 4 + a.val) 0) ∧
    (∀ a : Fin 4, STATES.getD (a.val * 4 + a.val) 0 = 0) := by
  refine ⟨?_, ?_, ?_⟩ <;> decide

/-- Claim C7: a failed pin-level read is treated as the pin being low, and
update never surfaces an error: it is a total function into RotaryEncoder
(no error component in its result), and a trace with a failed read computes
the same state as the trace reading low on that pin. -/
theorem c7_failed_read_is_low (e : RotaryEncoder) (r : Option Bool) :
    e.update Option.none r = e.update (some false) r ∧
    e.update r Option.none = e.update r (some false) :=
  ⟨rfl, rfl⟩

/-- Claim C5: on a tracker update call, velocity becomes
min (velocity + inc_factor) 1 exactly when the inner update stored a
non-None direction, current_time - previous_time is strictly below the
action window, and the pre-call velocity is strictly below 1; in every
other case the call leaves velocity unchanged. -/
theorem c5_velocity_increment_rule (tr : RotaryEncoderWithVelocity)
    (dtRead clkRead : Option Bool) (current_time : Nat) :
    (tr.update dtRead clkRead current_time).velocity =
      if (tr.inner.update dtRead clkRead).direction ≠ Direction.none ∧
         current_time - tr.previous_time < tr.velocity_action_ms ∧ tr.velocity < 1
      then min (tr.velocity + tr.velocity_inc_factor) 1
      else tr.velocity := by
  unfold RotaryEncoderWithVelocity.update
  by_cases hdir : (tr.inner.update dtRead clkRead).direction ≠ Direction.none
  · by_cases hcond :
      current_time - tr.previous_time < tr.velocity_action_ms ∧ tr.velocity < 1
    · simp only [hdir, hcond, if_pos, if_true, and_self, true_and,
        clamp_top_eq_min]
      simp [hdir, hcond]
    · simp [hdir, hcond]
  · simp [hdir]

/-- Claim C6: on a tracker update call, previous_time is set to the
supplied current_time exactly when the resulting direction is None, and is
left unchanged when the resulting direction is non-None, even when the
velocity increment was skipped. -/
theorem c6_previous_time_rule (tr : RotaryEncoderWithVelocity)
    (dtRead clkRead : Option Bool) (current_time : Nat) :
    (tr.update dtRead clkRead current_time).previous_time =
      if (tr.inner.update dtRead clkRead).direction = Direction.none
      then current_time
      else tr.previous_time := by
  unfold RotaryEncoderWithVelocity.update
  by_cases hdir : (tr.inner.update dtRead clkRead).direction = Direction.none
  · simp [hdir]
  · by_cases hcond :
      current_time - tr.previous_time < tr.velocity_action_ms ∧ tr.velocity < 1
    · simp [hdir, hcond]
    · simp [hdir, hcond]

/-- Claim C3 is false as stated: run from a fresh decoder, the quadrature
sample sequence 00, 01, 11 (the prefix of 00, 01, 11, 10 repeated, stopped
at the call reaching the default threshold 2) produces zero Clockwise
events and stores Anticlockwise, and the mirrored sequence 10, 11 produces
zero Anticlockwise events and stores Clockwise. -/
theorem c3_claim_false :
    RotaryEncoder.new.dirEventCount
        [pinInput false false, pinInput false true, pinInput true true]
        Direction.clockwise = 0 ∧
    (RotaryEncoder.new.run
        [pinInput false false, pinInput false true, pinInput true true]).direction =
      Direction.anticlockwise ∧
    RotaryEncoder.new.dirEventCount [pinInput true false, pinInput true true]
        Direction.anticlockwise = 0 ∧
    (RotaryEncoder.new.run [pinInput true false, pinInput true true]).direction =
      Direction.clockwise := by
  decide

/-- Claim C3 (amended): from a fresh decoder, feeding 00, 01, 11, 10
repeated until the sensitivity threshold is reached yields exactly one
Anticlockwise event and leaves the accumulator at 0, and the mirrored
(reversed) sequence yields exactly one Clockwise event, at both Default
sensitivity (threshold reached after 3 samples) and Low sensitivity
(threshold reached after 5 samples forward, 4 samples mirrored). -/
theorem c3_quadrature_detents :
    (RotaryEncoder.new.run
        [pinInput false false, pinInput false true, pinInput true true]).direction =
      Direction.anticlockwise ∧
    (RotaryEncoder.new.run
        [pinInput false false, pinInput false true, pinInput true true]).pos_calc = 0 ∧
    RotaryEncoder.new.dirEventCount
        [pinInput false false, pinInput false true, pinInput true true]
        Direction.anticlockwise = 1 ∧
    (RotaryEncoder.new.run [pinInput true false, pinInput true true]).direction =
      Direction.clockwise ∧
    (RotaryEncoder.new.run [pinInput true false, pinInput true true]).pos_calc = 0 ∧
    RotaryEncoder.new.dirEventCount [pinInput true false, pinInput true true]
        Direction.clockwise = 1 ∧
    ((RotaryEncoder.new.set_sensitivity Sensitivity.low).run
        [pinInput false false, pinInput false true, pinInput true true,
         pinInput true false, pinInput false false]).direction =
      Direction.anticlockwise ∧
    ((RotaryEncoder.new.set_sensitivity Sensitivity.low).run
        [pinInput false false, pinInput false true, pinInput true true,
         pinInput true false, pinInput false false]).pos_calc = 0 ∧
    (RotaryEncoder.new.set_sensitivity Sensitivity.low).dirEventCount
        [pinInput false false, pinInput false true, pinInput true true,
         pinInput true false, pinInput false false]
        Direction.anticlockwise = 1 ∧
    ((RotaryEncoder.new.set_sensitivity Sensitivity.low).run
        [pinInput true false, pinInput true true, pinInput false true,
         pinInput false false]).direction = Direction.clockwise ∧
    ((RotaryEncoder.new.set_sensitivity Sensitivity.low).run
        [pinInput true false, pinInput true true, pinInput false true,
         pinInput false false]).pos_calc = 0 ∧
    (RotaryEncoder.new.set_sensitivity Sensitivity.low).dirEventCount
        [pinInput true false, pinInput true true, pinInput false true,
         pinInput false false] Direction.clockwise = 1 := by
  decide

/-- Claim C1 is false as stated, at two points.  With Low sensitivity the
clockwise pumping trace 10, 11, 01 leaves the accumulator at 3, and the
next call (sample 00) completes the detent and resets it to 0, a change of
3 in one call, refuting change-by-at-most-1-per-call.  And lowering the
sensitivity of that same accumulator-3 state from Low to Default via
set_sensitivity leaves the accumulator magnitude at 3, not strictly below
the new threshold 2, refuting the invariant across set_sensitivity calls. -/
theorem c1_claim_false :
    ((RotaryEncoder.new.set_sensitivity Sensitivity.low).run
        [pinInput true false, pinInput true true, pinInput false true]).pos_calc = 3 ∧
    (((RotaryEncoder.new.set_sensitivity Sensitivity.low).run
        [pinInput true false, pinInput true true, pinInput false true]).update
        (some false) (some false)).pos_calc = 0 ∧
    ¬ |((((RotaryEncoder.new.set_sensitivity Sensitivity.low).run
        [pinInput true false, pinInput true true, pinInput false true]).set_sensitivity
        Sensitivity.default).pos_calc)| <
      ((((RotaryEncoder.new.set_sensitivity Sensitivity.low).run
        [pinInput true false, pinInput true true, pinInput false true]).set_sensitivity
        Sensitivity.default).sensitivity).toInt := by
  decide

/-- Claim C8 is false as stated, on two counts.  First, the reachable
state after samples 10, 11 stores direction Clockwise, and the next call
is an invalid jump (previous sample 11, current sample 00), yet it changes
the stored direction, from Clockwise back to None.  Second, since the
claim quantifies over every decoder state, in a state whose accumulator
already equals the sensitivity magnitude (reachable via set_sensitivity)
the same invalid jump resets the accumulator to 0 and fires a direction
event, so its contribution is not absorbed. -/
theorem c8_claim_false :
    ((RotaryEncoder.new.run [pinInput true false, pinInput true true]).direction =
      Direction.clockwise ∧
    ((RotaryEncoder.new.run [pinInput true false, pinInput true true]).transition % 4 = 3 ∧
      currentSample (some false) (some false) = 0) ∧
    ((RotaryEncoder.new.run [pinInput true false, pinInput true true]).update
        (some false) (some false)).direction ≠
      (RotaryEncoder.new.run [pinInput true false, pinInput true true]).direction) ∧
    (invalidJump
      (({ pos_calc := 2, sensitivity := Sensitivity.default, transition := 3,
          direction := Direction.none } : RotaryEncoder).transition % 4)
      (currentSample (some false) (some false)) ∧
    (({ pos_calc := 2, sensitivity := Sensitivity.default, transition := 3,
        direction := Direction.none } : RotaryEncoder).update
        (some false) (some false)).pos_calc ≠ 2 ∧
    (({ pos_calc := 2, sensitivity := Sensitivity.default, transition := 3,
        direction := Direction.none } : RotaryEncoder).update
        (some false) (some false)).direction ≠ Direction.none) := by
  decide

/-- Claim C2 is false as stated: after setting the increase factor to the
negative value -1/2 through its setter, a single in-window direction event
(samples 10 then 11 at time 0) drives velocity to -1/2, strictly below the
claimed lower bound 0. -/
theorem c2_claim_false :
    (RotaryEncoderWithVelocity.new.runOps
      [TrackerOp.setInc (-(1/2 : ℚ)),
       TrackerOp.upd (some true) (some false) 0,
       TrackerOp.upd (some true) (some true) 0]).velocity < 0 := by
  simp only [RotaryEncoderWithVelocity.runOps, RotaryEncoderWithVelocity.applyOp,
    RotaryEncoderWithVelocity.update, RotaryEncoderWithVelocity.new,
    RotaryEncoderWithVelocity.set_velocity_inc_factor,
    RotaryEncoder.update, RotaryEncoder.new, RotaryEncoder.nextTransition,
    RotaryEncoder.stepOf, currentSample, pinInput, STATES, Sensitivity.toInt,
    List.foldl]
  simp
  all_goals norm_num

/-- Claim C4 is false as stated, in both directions.  First trace: the two
direction events fire at times 100 and 102, a delta of 2, below the
25 ms window, yet the first event call leaves velocity at 0 because the
code compares against the last None-direction timestamp (0), not the
previous event.  Second trace: the two events fire at times 0 and 101, a
delta of 101, at least the window, yet the second event call still raises
velocity from 1/5 to 2/5 because the last None-direction call happened at
time 100, within the window. -/
theorem c4_claim_false :
    ((RotaryEncoderWithVelocity.new.runUpdates
        [(pinInput true false, 0), (pinInput true true, 100)]).inner.direction =
      Direction.clockwise ∧
     (RotaryEncoderWithVelocity.new.runUpdates
        [(pinInput true false, 0), (pinInput true true, 100)]).velocity = 0 ∧
     (RotaryEncoderWithVelocity.new.runUpdates
        [(pinInput true false, 0), (pinInput true true, 100), (pinInput true false, 101),
         (pinInput false false, 102)]).inner.direction = Direction.anticlockwise ∧
     (RotaryEncoderWithVelocity.new.runUpdates
        [(pinInput true false, 0), (pinInput true true, 100), (pinInput true false, 101),
         (pinInput false false, 102)]).velocity = 1/5) ∧
    ((RotaryEncoderWithVelocity.new.runUpdates
        [(pinInput true false, 0), (pinInput true true, 0)]).inner.direction =
      Direction.clockwise ∧
     (RotaryEncoderWithVelocity.new.runUpdates
        [(pinInput true false, 0), (pinInput true true, 0)]).velocity = 1/5 ∧
     (RotaryEncoderWithVelocity.new.runUpdates
        [(pinInput true false, 0), (pinInput true true, 0), (pinInput true false, 100),
         (pinInput false false, 101)]).inner.direction = Direction.anticlockwise ∧
     (RotaryEncoderWithVelocity.new.runUpdates
        [(pinInput true false, 0), (pinInput true true, 0), (pinInput true false, 100),
         (pinInput false false, 101)]).velocity = 2/5) := by
  simp only [RotaryEncoderWithVelocity.runUpdates,
    RotaryEncoderWithVelocity.update, RotaryEncoderWithVelocity.new,
    RotaryEncoder.update, RotaryEncoder.new, RotaryEncoder.nextTransition,
    RotaryEncoder.stepOf, currentSample, pinInput, STATES, Sensitivity.toInt,
    List.foldl]
  simp
  all_goals norm_num

/-- Unfolding equation for RotaryEncoder.update. -/
theorem encoder_update_eq (e : RotaryEncoder) (dtRead clkRead : Option Bool) :
    e.update dtRead clkRead =
      if e.pos_calc + e.stepOf dtRead clkRead = e.sensitivity.toInt ∨
         e.pos_calc + e.stepOf dtRead clkRead = -e.sensitivity.toInt then
        { e with transition := e.nextTransition dtRead clkRead, pos_calc := 0,
                 direction :=
                   if e.pos_calc + e.stepOf dtRead clkRead = e.sensitivity.toInt
                   then Direction.clockwise else Direction.anticlockwise }
      else
        { e with transition := e.nextTransition dtRead clkRead,
                 pos_calc := e.pos_calc + e.stepOf dtRead clkRead,
                 direction := Direction.none } := rfl

/-- The sensitivity magnitude is positive (2 or 4). -/
theorem sensitivity_toInt_pos (s : Sensitivity) : 0 < s.toInt := by
  cases s <;> decide

/-- Every lookup in STATES, at any index and with the default 0, yields
-1, 0 or 1. -/
theorem states_getD_cases (n : Nat) :
    STATES.getD n 0 = -1 ∨ STATES.getD n 0 = 0 ∨ STATES.getD n 0 = 1 := by
  rcases Nat.lt_or_ge n 16 with h | h
  · interval_cases n <;> decide
  · right; left
    exact List.getD_eq_default _ _ (by simpa [STATES] using h)

/-- The per-call table contribution is -1, 0 or 1. -/
theorem stepOf_cases (e : RotaryEncoder) (dtRead clkRead : Option Bool) :
    e.stepOf dtRead clkRead = -1 ∨ e.stepOf dtRead clkRead = 0 ∨
    e.stepOf dtRead clkRead = 1 :=
  states_getD_cases _

/-- update does not change the stored sensitivity. -/
theorem update_sensitivity_eq (e : RotaryEncoder) (dtRead clkRead : Option Bool) :
    (e.update dtRead clkRead).sensitivity = e.sensitivity := by
  rw [encoder_update_eq]
  split_ifs <;> rfl

/-- update preserves the accumulator bound. -/
theorem update_pos_inv (e : RotaryEncoder) (dtRead clkRead : Option Bool)
    (h : |e.pos_calc| < e.sensitivity.toInt) :
    |(e.update dtRead clkRead).pos_calc| < (e.update dtRead clkRead).sensitivity.toInt := by
  have hs := sensitivity_toInt_pos e.sensitivity
  have hstep := stepOf_cases e dtRead clkRead
  rw [encoder_update_eq]
  by_cases h1 : e.pos_calc + e.stepOf dtRead clkRead = e.sensitivity.toInt ∨
      e.pos_calc + e.stepOf dtRead clkRead = -e.sensitivity.toInt
  · rw [if_pos h1]
    show |(0 : Int)| < e.sensitivity.toInt
    simpa using hs
  · rw [if_neg h1]
    show |e.pos_calc + e.stepOf dtRead clkRead| < e.sensitivity.toInt
    push_neg at h1
    rw [abs_lt] at h ⊢
    rcases hstep with hst | hst | hst <;> rw [hst] at h1 ⊢ <;> omega

/-- Along any update trace the accumulator bound is preserved. -/
theorem run_pos_inv (l : List Input) (e : RotaryEncoder)
    (h : |e.pos_calc| < e.sensitivity.toInt) :
    |(e.run l).pos_calc| < (e.run l).sensitivity.toInt := by
  induction l generalizing e with
  | nil => exact h
  | cons i l ih => exact ih _ (update_pos_inv _ _ _ h)

/-- A call stores a non-None direction exactly when the accumulator,
after the table contribution, reaches the sensitivity magnitude. -/
theorem update_direction_iff (e : RotaryEncoder) (dtRead clkRead : Option Bool) :
    (e.update dtRead clkRead).direction ≠ Direction.none ↔
      |e.pos_calc + e.stepOf dtRead clkRead| = e.sensitivity.toInt := by
  have hs := sensitivity_toInt_pos e.sensitivity
  rw [encoder_update_eq]
  by_cases h1 : e.pos_calc + e.stepOf dtRead clkRead = e.sensitivity.toInt ∨
      e.pos_calc + e.stepOf dtRead clkRead = -e.sensitivity.toInt
  · rw [if_pos h1]
    constructor
    · intro _
      exact (abs_eq hs.le).mpr h1
    · intro _
      show (if e.pos_calc + e.stepOf dtRead clkRead = e.sensitivity.toInt
            then Direction.clockwise else Direction.anticlockwise) ≠ Direction.none
      split_ifs <;> decide
  · rw [if_neg h1]
    constructor
    · intro hcon
      exact absurd rfl hcon
    · intro habs
      exact absurd ((abs_eq hs.le).mp habs) h1

/-- On a detent call the accumulator resets to 0; on every other call it
just adds the table contribution. -/
theorem update_pos_cases (e : RotaryEncoder) (dtRead clkRead : Option Bool) :
    ((e.update dtRead clkRead).direction = Direction.none ∧
      (e.update dtRead clkRead).pos_calc = e.pos_calc + e.stepOf dtRead clkRead) ∨
    ((e.update dtRead clkRead).direction ≠ Direction.none ∧
      (e.update dtRead clkRead).pos_calc = 0) := by
  rw [encoder_update_eq]
  by_cases h1 : e.pos_calc + e.stepOf dtRead clkRead = e.sensitivity.toInt ∨
      e.pos_calc + e.stepOf dtRead clkRead = -e.sensitivity.toInt
  · rw [if_pos h1]
    right
    constructor
    · show (if e.pos_calc + e.stepOf dtRead clkRead = e.sensitivity.toInt
            then Direction.clockwise else Direction.anticlockwise) ≠ Direction.none
      split_ifs <;> decide
    · rfl
  · rw [if_neg h1]
    left
    exact ⟨rfl, rfl⟩

/-- Claim C1 (amended): along any update-only trace from a freshly
constructed decoder whose sensitivity is fixed once at construction time,
the table contribution of every call is at most 1 in absolute value; the
accumulator magnitude stays strictly below the sensitivity magnitude at
every observation point; a call stores a non-None direction exactly when
its accumulator value reaches the sensitivity magnitude, in which case the
accumulator is exactly 0 immediately afterwards; and on every other call
the accumulator changes only by the table contribution.  (The original
claim fails in two ways, both exhibited by the counterexample: a detent
call changes the accumulator by sensitivity - 1, up to 3 at Low
sensitivity, and an intervening set_sensitivity call can leave the
magnitude at or above the new threshold.) -/
theorem c1_fixed_sensitivity_invariant (s : Sensitivity) (l : List Input)
    (dtRead clkRead : Option Bool) :
    |((RotaryEncoder.new.set_sensitivity s).run l).stepOf dtRead clkRead| ≤ 1 ∧
    |((RotaryEncoder.new.set_sensitivity s).run l).pos_calc| <
      ((RotaryEncoder.new.set_sensitivity s).run l).sensitivity.toInt ∧
    ((((RotaryEncoder.new.set_sensitivity s).run l).update dtRead clkRead).direction ≠
        Direction.none ↔
      |((RotaryEncoder.new.set_sensitivity s).run l).pos_calc +
        ((RotaryEncoder.new.set_sensitivity s).run l).stepOf dtRead clkRead| =
        ((RotaryEncoder.new.set_sensitivity s).run l).sensitivity.toInt) ∧
    ((((RotaryEncoder.new.set_sensitivity s).run l).update dtRead clkRead).direction ≠
        Direction.none →
      (((RotaryEncoder.new.set_sensitivity s).run l).update dtRead clkRead).pos_calc = 0) ∧
    ((((RotaryEncoder.new.set_sensitivity s).run l).update dtRead clkRead).direction =
        Direction.none →
      (((RotaryEncoder.new.set_sensitivity s).run l).update dtRead clkRead).pos_calc =
        ((RotaryEncoder.new.set_sensitivity s).run l).pos_calc +
        ((RotaryEncoder.new.set_sensitivity s).run l).stepOf dtRead clkRead) := by
  have hbase : |(RotaryEncoder.new.set_sensitivity s).pos_calc| <
      (RotaryEncoder.new.set_sensitivity s).sensitivity.toInt := by
    have := sensitivity_toInt_pos s
    simpa [RotaryEncoder.new, RotaryEncoder.set_sensitivity] using this
  have hinv := run_pos_inv l _ hbase
  refine ⟨?_, hinv, update_direction_iff _ _ _, ?_, ?_⟩
  · rcases stepOf_cases ((RotaryEncoder.new.set_sensitivity s).run l) dtRead clkRead
      with h | h | h <;> rw [h] <;> decide
  · intro hdir
    rcases update_pos_cases ((RotaryEncoder.new.set_sensitivity s).run l) dtRead clkRead
      with ⟨h1, _⟩ | ⟨_, h2⟩
    · exact absurd h1 hdir
    · exact h2
  · intro hdir
    rcases update_pos_cases ((RotaryEncoder.new.set_sensitivity s).run l) dtRead clkRead
      with ⟨_, h2⟩ | ⟨h1, _⟩
    · exact h2
    · exact absurd hdir h1

/-- The packed current sample is a 2-bit value. -/
theorem currentSample_lt_four (dtRead clkRead : Option Bool) :
    currentSample dtRead clkRead < 4 := by
  unfold currentSample
  split_ifs <;> norm_num

/-- The table index used by update is the previous 2-bit sample shifted
left by two, plus the current 2-bit sample. -/
theorem nextTransition_mod_sixteen (e : RotaryEncoder) (dtRead clkRead : Option Bool) :
    e.nextTransition dtRead clkRead % 16 =
      (e.transition % 4) * 4 + currentSample dtRead clkRead := by
  have hc := currentSample_lt_four dtRead clkRead
  unfold RotaryEncoder.nextTransition
  omega

/-- Claim C8 (amended): in any decoder state whose accumulator magnitude
is strictly below the sensitivity magnitude (the invariant of every
reachable fixed-sensitivity state), an update call whose
(previous-sample, current-sample) pair is an invalid jump contributes 0 to
the accumulator, and stores direction None: it fires no direction event,
though it does overwrite a non-None direction stored by the preceding
call, which is what refutes the original unchanged-direction wording. -/
theorem c8_invalid_jump_absorbed (e : RotaryEncoder) (dtRead clkRead : Option Bool)
    (hpos : |e.pos_calc| < e.sensitivity.toInt)
    (hj : invalidJump (e.transition % 4) (currentSample dtRead clkRead)) :
    (e.update dtRead clkRead).pos_calc = e.pos_calc ∧
    (e.update dtRead clkRead).direction = Direction.none := by
  have hs := sensitivity_toInt_pos e.sensitivity
  have hstep : e.stepOf dtRead clkRead = 0 := by
    unfold RotaryEncoder.stepOf
    rw [nextTransition_mod_sixteen]
    rcases hj with ⟨h1, h2⟩ | ⟨h1, h2⟩ | ⟨h1, h2⟩ | ⟨h1, h2⟩ <;> rw [h1, h2] <;> decide
  have hne : ¬(e.pos_calc + e.stepOf dtRead clkRead = e.sensitivity.toInt ∨
      e.pos_calc + e.stepOf dtRead clkRead = -e.sensitivity.toInt) := by
    rw [hstep, add_zero]
    rw [abs_lt] at hpos
    rintro (h | h) <;> omega
  rw [encoder_update_eq, if_neg hne]
  exact ⟨by rw [hstep, add_zero], rfl⟩

/-- Witness for C8 at a concrete state: the fresh decoder has previous
sample 00 and accumulator 0, and a double-jump read of 11 is absorbed. -/
theorem c8_invalid_jump_absorbed_witness :
    (|RotaryEncoder.new.pos_calc| < RotaryEncoder.new.sensitivity.toInt ∧
     invalidJump (RotaryEncoder.new.transition % 4)
       (currentSample (some true) (some true))) ∧
    ((RotaryEncoder.new.update (some true) (some true)).pos_calc =
        RotaryEncoder.new.pos_calc ∧
     (RotaryEncoder.new.update (some true) (some true)).direction =
        Direction.none) :=
  ⟨⟨by decide, by decide⟩,
   c8_invalid_jump_absorbed RotaryEncoder.new (some true) (some true)
     (by decide) (by decide)⟩

/-- Unfolding equation for RotaryEncoderWithVelocity.update. -/
theorem tracker_update_eq (tr : RotaryEncoderWithVelocity)
    (dtRead clkRead : Option Bool) (current_time : Nat) :
    tr.update dtRead clkRead current_time =
      if (tr.inner.update dtRead clkRead).direction ≠ Direction.none then
        if current_time - tr.previous_time < tr.velocity_action_ms ∧
           tr.velocity < 1 then
          { tr with inner := tr.inner.update dtRead clkRead,
                    velocity :=
                      if 1 < tr.velocity + tr.velocity_inc_factor then 1
                      else tr.velocity + tr.velocity_inc_factor }
        else
          { tr with inner := tr.inner.update dtRead clkRead }
      else
        { tr with inner := tr.inner.update dtRead clkRead,
                  previous_time := current_time } := rfl

/-- Claim C4 (amended): consider a tracker update call at time t2 whose
inner update stores a non-None direction (the second of two consecutive
direction events), where the stored previous_time lies between the time t1
of the earlier event and t2; this holds whenever the calls separating the
two events all stored direction None and carried non-decreasing
timestamps, since each of them wrote its timestamp to previous_time.  If
the inter-event delta t2 - t1 is strictly below the action window and the
pre-call velocity is below 1, this second event call sets velocity to
min (velocity + inc_factor) 1, i.e. it increments by inc_factor subject to
the 1.0 ceiling.  (The original claim fails in both directions: the first
event call can skip the increment even when the delta is small, and a
delta at or above the window can still increment, because the code
compares current_time against the last None-direction timestamp, not
against the previous event; see the counterexample.) -/
theorem c4_second_event_increment (tr : RotaryEncoderWithVelocity)
    (dtRead clkRead : Option Bool) (t1 t2 : Nat)
    (h1 : t1 ≤ tr.previous_time) (h2 : tr.previous_time ≤ t2)
    (hdelta : t2 - t1 < tr.velocity_action_ms)
    (hv : tr.velocity < 1)
    (hev : (tr.inner.update dtRead clkRead).direction ≠ Direction.none) :
    (tr.update dtRead clkRead t2).velocity =
      min (tr.velocity + tr.velocity_inc_factor) 1 := by
  have hlt : t2 - tr.previous_time < tr.velocity_action_ms :=
    lt_of_le_of_lt (Nat.sub_le_sub_left h1 t2) hdelta
  rw [tracker_update_eq, if_pos hev, if_pos ⟨hlt, hv⟩]
  exact clamp_top_eq_min _

/-- Witness for C4 at a concrete state: previous_time 5 sits between the
event times 5 and 6, the delta 1 is inside the window 25, and the call at
time 6 completes a clockwise detent and raises velocity from 0 to 1/5. -/
theorem c4_second_event_increment_witness :
    (5 ≤ c4Tracker.previous_time ∧ c4Tracker.previous_time ≤ 6 ∧
     6 - 5 < c4Tracker.velocity_action_ms ∧ c4Tracker.velocity < 1 ∧
     (c4Tracker.inner.update (some true) (some true)).direction ≠ Direction.none) ∧
    (c4Tracker.update (some true) (some true) 6).velocity =
      min (c4Tracker.velocity + c4Tracker.velocity_inc_factor) 1 :=
  ⟨⟨by norm_num [c4Tracker], by norm_num [c4Tracker], by norm_num [c4Tracker],
    by norm_num [c4Tracker], by decide⟩,
   c4_second_event_increment c4Tracker (some true) (some true) 5 6
     (by norm_num [c4Tracker]) (by norm_num [c4Tracker]) (by norm_num [c4Tracker])
     (by norm_num [c4Tracker]) (by decide)⟩

/-- One tracker operation preserves the velocity bounds, as long as any
factor it installs is nonnegative. -/
theorem applyOp_trackerInv (tr : RotaryEncoderWithVelocity) (op : TrackerOp)
    (h : trackerInv tr) (hop : op.factorNonneg) : trackerInv (tr.applyOp op) := by
  obtain ⟨h0, h1, hinc, hdec⟩ := h
  cases op with
  | upd dtRead clkRead t =>
    show trackerInv (tr.update dtRead clkRead t)
    rw [tracker_update_eq]
    by_cases hd : (tr.inner.update dtRead clkRead).direction ≠ Direction.none
    · rw [if_pos hd]
      by_cases hc : t - tr.previous_time < tr.velocity_action_ms ∧ tr.velocity < 1
      · rw [if_pos hc]
        refine ⟨?_, ?_, hinc, hdec⟩
        · show (0 : ℚ) ≤ if 1 < tr.velocity + tr.velocity_inc_factor then 1
              else tr.velocity + tr.velocity_inc_factor
          split_ifs with hgt
          · norm_num
          · exact add_nonneg h0 hinc
        · show (if 1 < tr.velocity + tr.velocity_inc_factor then 1
              else tr.velocity + tr.velocity_inc_factor) ≤ 1
          split_ifs with hgt
          · exact le_refl 1
          · exact le_of_not_lt hgt
      · rw [if_neg hc]
        exact ⟨h0, h1, hinc, hdec⟩
    · rw [if_neg hd]
      exact ⟨h0, h1, hinc, hdec⟩
  | decay =>
    show trackerInv tr.decay_velocity
    refine ⟨?_, ?_, hinc, hdec⟩
    · show (0 : ℚ) ≤ if tr.velocity - tr.velocity_dec_factor < 0 then 0
          else tr.velocity - tr.velocity_dec_factor
      split_ifs with hlt
      · exact le_refl 0
      · exact le_of_not_lt hlt
    · show (if tr.velocity - tr.velocity_dec_factor < 0 then 0
          else tr.velocity - tr.velocity_dec_factor) ≤ 1
      split_ifs with hlt
      · norm_num
      · exact (sub_le_self _ hdec).trans h1
  | setInc q => exact ⟨h0, h1, hop, hdec⟩
  | setDec q => exact ⟨h0, h1, hinc, hop⟩
  | setActionMs ms => exact ⟨h0, h1, hinc, hdec⟩
  | setSens s => exact ⟨h0, h1, hinc, hdec⟩

/-- A whole operation trace preserves the velocity bounds when every
factor installed along it is nonnegative. -/
theorem runOps_trackerInv (l : List TrackerOp) (tr : RotaryEncoderWithVelocity)
    (h : trackerInv tr) (hops : ∀ op ∈ l, op.factorNonneg) :
    trackerInv (tr.runOps l) := by
  induction l generalizing tr with
  | nil => exact h
  | cons op l ih =>
    exact ih _ (applyOp_trackerInv tr op h (hops op (List.mem_cons_self op l)))
      (fun o ho => hops o (List.mem_cons_of_mem op ho))

/-- Claim C2 (amended): starting from a fresh tracker, for every
interleaving of update, decay_velocity and setter calls in which the
values passed to the two factor setters are nonnegative, the velocity
stays within [0, 1] at every observation point.  (For a negative factor
the claim as stated fails, see the counterexample: the increment branch of
update only clamps at the 1.0 ceiling and the decay branch only at the 0.0
floor, so a negative inc_factor pushes velocity below 0.) -/
theorem c2_velocity_bounded (l : List TrackerOp)
    (hops : ∀ op ∈ l, op.factorNonneg) :
    0 ≤ (RotaryEncoderWithVelocity.new.runOps l).velocity ∧
    (RotaryEncoderWithVelocity.new.runOps l).velocity ≤ 1 := by
  have hnew : trackerInv RotaryEncoderWithVelocity.new := by
    refine ⟨?_, ?_, ?_, ?_⟩ <;> norm_num [RotaryEncoderWithVelocity.new]
  obtain ⟨h0, h1, _, _⟩ := runOps_trackerInv l _ hnew hops
  exact ⟨h0, h1⟩

/-- Witness for C2 on a short concrete trace: one detent-completing update
at time 0 followed by one decay, with no setter call, keeps velocity
within the bounds. -/
theorem c2_velocity_bounded_witness :
    (∀ op ∈ [TrackerOp.upd (some true) (some false) 0,
             TrackerOp.upd (some true) (some true) 0, TrackerOp.decay],
       op.factorNonneg) ∧
    (0 ≤ (RotaryEncoderWithVelocity.new.runOps
        [TrackerOp.upd (some true) (some false) 0,
         TrackerOp.upd (some true) (some true) 0, TrackerOp.decay]).velocity ∧
     (RotaryEncoderWithVelocity.new.runOps
        [TrackerOp.upd (some true) (some false) 0,
         TrackerOp.upd (some true) (some true) 0, TrackerOp.decay]).velocity ≤ 1) :=
  ⟨by decide,
   c2_velocity_bounded
     [TrackerOp.upd (some true) (some false) 0,
      TrackerOp.upd (some true) (some true) 0, TrackerOp.decay]
     (by decide)⟩

/-- A tracker update call either leaves previous_time unchanged or writes
the supplied current_time into it. -/
theorem tracker_update_previous_time_cases (tr : RotaryEncoderWithVelocity)
    (dtRead clkRead : Option Bool) (t : Nat) :
    (tr.update dtRead clkRead t).previous_time = tr.previous_time ∨
    (tr.update dtRead clkRead t).previous_time = t := by
  rw [tracker_update_eq]
  by_cases hd : (tr.inner.update dtRead clkRead).direction ≠ Direction.none
  · rw [if_pos hd]
    by_cases hc : t - tr.previous_time < tr.velocity_action_ms ∧ tr.velocity < 1
    · rw [if_pos hc]
      left
      rfl
    · rw [if_neg hc]
      left
      rfl
  · rw [if_neg hd]
    right
    rfl

/-- Along a run of update calls with non-decreasing times, the stored
previous_time entering the i-th call never exceeds that call's time. -/
theorem runUpdates_previous_time_le (l : List (Input × Nat))
    (tr : RotaryEncoderWithVelocity)
    (hmono : l.Chain' (fun a b => a.2 ≤ b.2))
    (h0 : ∀ x ∈ l.head?, tr.previous_time ≤ x.2) :
    ∀ i : Fin l.length,
      (tr.runUpdates (l.take i.val)).previous_time ≤ (l.get i).2 := by
  induction l generalizing tr with
  | nil =>
    intro i
    exact absurd i.isLt (by simp)
  | cons x xs ih =>
    intro i
    have hx : tr.previous_time ≤ x.2 := h0 x rfl
    obtain ⟨hhd, htl⟩ := List.chain'_cons'.mp hmono
    match i with
    | ⟨0, _⟩ => exact hx
    | ⟨j + 1, hj⟩ =>
      have hj' : j < xs.length := by simpa using hj
      have h0' : ∀ y ∈ xs.head?, (tr.update x.1.1 x.1.2 x.2).previous_time ≤ y.2 := by
        intro y hy
        have hxy : x.2 ≤ y.2 := hhd y hy
        rcases tracker_update_previous_time_cases tr x.1.1 x.1.2 x.2 with h | h
        · rw [h]
          exact hx.trans hxy
        · rw [h]
          exact hxy
      exact ih (tr.update x.1.1 x.1.2 x.2) htl h0' ⟨j, hj'⟩

/-- Claim C9: for every sequence of tracker update calls from a fresh
tracker in which the supplied current_time values are non-decreasing, the
stored previous_time entering each call never exceeds that call's
current_time, so the subtraction current_time - previous_time inside
update never underflows its unsigned type and update completes without a
panic. -/
theorem c9_monotone_time_no_underflow (l : List (Input × Nat))
    (hmono : l.Chain' (fun a b => a.2 ≤ b.2)) :
    ∀ i : Fin l.length,
      (RotaryEncoderWithVelocity.new.runUpdates (l.take i.val)).previous_time ≤
        (l.get i).2 :=
  runUpdates_previous_time_le l RotaryEncoderWithVelocity.new hmono
    (fun x _ => Nat.zero_le x.2)

/-- Witness for C9 on a concrete two-call trace with times 1 then 2: the
previous_time entering the second call is at most 2. -/
theorem c9_monotone_time_no_underflow_witness :
    ([(pinInput true true, 1), (pinInput false false, 2)] :
        List (Input × Nat)).Chain' (fun a b => a.2 ≤ b.2) ∧
    (RotaryEncoderWithVelocity.new.runUpdates
        ([(pinInput true true, 1), (pinInput false false, 2)].take 1)).previous_time ≤ 2 :=
  ⟨List.chain'_pair.mpr (by norm_num),
   c9_monotone_time_no_underflow
     [(pinInput true true, 1), (pinInput false false, 2)]
     (List.chain'_pair.mpr (by norm_num)) ⟨1, by decide⟩⟩
